import Mathlib

/-!
The client façade of go-stun (`stun/client.go`).

A shallow embedding of `stun/client.go`: the `Client` record, its two
constructors and the four public operations `Discover`, `DiscoverAddr`,
`Keepalive` and `KeepaliveAddr`.

The operations are effectful Go methods with a pointer receiver.  They are
embedded as state-passing functions on a `State`, which holds

* `client`: the `Client` struct the receiver `c` points to,
* `net`: the state of everything outside this file (operating system,
  sockets, the network, the internals of the probe helpers), of an arbitrary
  type `σ`,
* `trace`: the calls this file makes to its collaborators, in program order.

The collaborators that `client.go` calls but does not define are the fields of
`Env`: the standard-library functions `net.ResolveUDPAddr`, `net.ListenUDP` and
`conn.Close`, and the methods `c.discover` and `c.test1` of the same package.
In `Env` the two methods may do anything to the client struct; `Helpers` and
`readOnlyEnv` give them as the spec describes the lower layers, reading the
client without writing it.
-/

namespace Stun

/-! ## Data model -/

/-- A Go `error` value, identified by its message (`errors.New msg`).  The
interface type `error` itself is `Option GoError`, with `none` for `nil`. -/
structure GoError where
  msg : String
  deriving DecidableEq, Repr

/-- A transport handle (`net.PacketConn`, in practice a `*net.UDPConn`),
identified by a number.  The interface type itself is `Option Conn`. -/
structure Conn where
  id : Nat
  deriving DecidableEq, Repr

/-- The standard library's `net.UDPAddr`: IP bytes, port and IPv6 zone.  A
`*net.UDPAddr` is an `Option UDPAddr`. -/
structure UDPAddr where
  IP : List Nat
  Port : Int
  Zone : String
  deriving DecidableEq, Repr

/-- Modelled from the spec: the `Host` type is declared outside `client.go`.
The spec describes it as a resolved network endpoint with a family
(IPv4/IPv6), an IP address and a port. -/
structure Host where
  family : Nat
  ip : String
  port : Nat
  deriving DecidableEq, Repr

/-- Modelled from the spec: the `NATType` enumeration is declared outside
`client.go`, which names only `NATError`.  The spec lists the verdicts
Open/Public, Full Cone, Restricted Cone, Port-Restricted Cone, Symmetric,
Symmetric UDP Firewall, Blocked and an Error/Unknown state. -/
inductive NATType where
  | NATError
  | NATOpen
  | NATFullCone
  | NATRestrictedCone
  | NATPortRestrictedCone
  | NATSymmetric
  | NATSymmetricUDPFirewall
  | NATBlocked
  deriving DecidableEq, Repr

/-- Modelled from the spec: the `packet` type is declared outside `client.go`,
which only compares a `*packet` with `nil`.  The spec describes a message as a
class and method, a transaction identifier, a body length and an ordered
sequence of (type, value) attributes. -/
structure packet where
  types : Nat
  length : Nat
  transID : List Nat
  attributes : List (Nat × List Nat)
  deriving DecidableEq, Repr

/-- The two fields of the `response` struct that `client.go` reads:
`resp.packet` (a `*packet`) and `resp.mappedAddr` (a `*Host`). -/
structure response where
  packet : Option Stun.packet
  mappedAddr : Option Host
  deriving DecidableEq, Repr

/-- The `ClientConfig` struct of `client.go`. -/
structure ClientConfig where
  DisableSoftware : Bool
  DisableFingerprint : Bool
  deriving DecidableEq, Repr

/-- `NewClientConfig` returns a pointer to the zero `ClientConfig`. -/
def NewClientConfig : Option ClientConfig :=
  some { DisableSoftware := false, DisableFingerprint := false }

/-- The `Logger` type is declared outside `client.go`; the file shows its two
switches, set by `SetDebug` and `SetInfo`. -/
structure Logger where
  debug : Bool
  info : Bool
  deriving DecidableEq, Repr

/-- The `Client` struct of `client.go`.  `config` and `logger` are pointers and
`conn` is an interface value, so each may be `nil` (`none`). -/
structure Client where
  config : Option ClientConfig
  softwareName : String
  conn : Option Conn
  logger : Option Logger
  deriving DecidableEq, Repr

/-- The value `new(Client)` points to: every field is the zero value. -/
def Client.new : Client :=
  { config := none, softwareName := "", conn := none, logger := none }

/-- `SetSoftwareName`: `c.softwareName = name`. -/
def Client.SetSoftwareName (c : Client) (name : String) : Client :=
  { c with softwareName := name }

/-! ## Collaborators and state -/

/-- A call made by `client.go` to one of its collaborators.  The calls to the
standard library record their outcome (`none` for a non-nil error). -/
inductive Event where
  | resolveUDPAddr (network : String) (address : String) (result : Option UDPAddr)
  | listenUDP (network : String) (laddr : Option UDPAddr) (result : Option Conn)
  | close (conn : Conn)
  | discover (conn : Conn) (serverAddr : Option UDPAddr)
  | test1 (conn : Conn) (serverAddr : Option UDPAddr)
  deriving DecidableEq, Repr

/-- The collaborators of `client.go`, over a state `σ` of the outside world.

`DefaultSoftwareName` and `NewLogger` are a constant and a constructor of the
package declared in other files.  `ResolveUDPAddr`, `ListenUDP` and `Close`
are the standard library's; they return either a value or a non-nil error.
`discover` and `test1` are methods on `*Client` defined in other files of the
package: they receive the client struct and may write to it, and they may
return any combination of nil and non-nil results. -/
structure Env (σ : Type) where
  DefaultSoftwareName : String
  NewLogger : Logger
  ResolveUDPAddr : String → String → σ → Except GoError UDPAddr × σ
  ListenUDP : String → Option UDPAddr → σ → Except GoError Conn × σ
  Close : Conn → σ → Option GoError × σ
  discover : Conn → Option UDPAddr → Client × σ →
    (NATType × Option Host × Option GoError) × (Client × σ)
  test1 : Conn → Option UDPAddr → Client × σ →
    (Option response × Option GoError) × (Client × σ)

/-- The state the methods of `client.go` run in. -/
structure State (σ : Type) where
  client : Client
  net : σ
  trace : List Event

variable {σ : Type}

/-- Modelled from the spec: the methods `c.discover` (the classifier) and
`c.test1` (the Test I probe) are defined outside `client.go`.  The spec has
the configuration and the transport handle owned by the façade, the
configuration read-only to lower layers and no mutable state shared between
the probes of a call other than the transport handle itself.  So these helpers
read the client and the handle they are given, act on the outside world, and
write no field of the client. -/
structure Helpers (σ : Type) where
  discover : Client → Conn → Option UDPAddr → σ →
    (NATType × Option Host × Option GoError) × σ
  test1 : Client → Conn → Option UDPAddr → σ →
    (Option response × Option GoError) × σ

/-- The collaborators `env` with the spec's helpers `hs` as `c.discover` and
`c.test1`: each reads the client and hands it back as it was. -/
def readOnlyEnv (env : Env σ) (hs : Helpers σ) : Env σ :=
  { env with
    discover := fun conn serverAddr cn =>
      ((hs.discover cn.1 conn serverAddr cn.2).1,
        (cn.1, (hs.discover cn.1 conn serverAddr cn.2).2))
    test1 := fun conn serverAddr cn =>
      ((hs.test1 cn.1 conn serverAddr cn.2).1,
        (cn.1, (hs.test1 cn.1 conn serverAddr cn.2).2)) }

/-- The outcome of a standard-library call as recorded in the trace. -/
def outcome {α : Type} : Except GoError α → Option α
  | .ok a => some a
  | .error _ => none

/-- `net.ResolveUDPAddr(network, address)`. -/
def callResolveUDPAddr (env : Env σ) (network address : String) (s : State σ) :
    Except GoError UDPAddr × State σ :=
  let r := env.ResolveUDPAddr network address s.net
  (r.1,
    { s with
      net := r.2
      trace := s.trace ++ [Event.resolveUDPAddr network address (outcome r.1)] })

/-- `net.ListenUDP(network, laddr)`. -/
def callListenUDP (env : Env σ) (network : String) (laddr : Option UDPAddr) (s : State σ) :
    Except GoError Conn × State σ :=
  let r := env.ListenUDP network laddr s.net
  (r.1,
    { s with
      net := r.2
      trace := s.trace ++ [Event.listenUDP network laddr (outcome r.1)] })

/-- `conn.Close()`; the error it returns is dropped by the caller. -/
def callClose (env : Env σ) (conn : Conn) (s : State σ) : State σ :=
  let r := env.Close conn s.net
  { s with net := r.2, trace := s.trace ++ [Event.close conn] }

/-- `c.discover(conn, serverAddr)`. -/
def callDiscover (env : Env σ) (conn : Conn) (serverAddr : Option UDPAddr) (s : State σ) :
    (NATType × Option Host × Option GoError) × State σ :=
  let r := env.discover conn serverAddr (s.client, s.net)
  (r.1, { client := r.2.1, net := r.2.2, trace := s.trace ++ [Event.discover conn serverAddr] })

/-- `c.test1(conn, serverAddr)`. -/
def callTest1 (env : Env σ) (conn : Conn) (serverAddr : Option UDPAddr) (s : State σ) :
    (Option response × Option GoError) × State σ :=
  let r := env.test1 conn serverAddr (s.client, s.net)
  (r.1, { client := r.2.1, net := r.2.2, trace := s.trace ++ [Event.test1 conn serverAddr] })

/-! ## The constructors -/

/-- `NewClient(config)`. -/
def NewClient (env : Env σ) (config : Option ClientConfig) : Client :=
  let c := Client.new
  let c := { c with config := config }
  let c := c.SetSoftwareName env.DefaultSoftwareName
  let c := { c with logger := some env.NewLogger }
  c

/-- `NewClientWithConnection(conn, config)`. -/
def NewClientWithConnection (env : Env σ) (conn : Option Conn) (config : Option ClientConfig) :
    Client :=
  let c := Client.new
  let c := { c with conn := conn }
  let c := { c with config := config }
  let c := c.SetSoftwareName env.DefaultSoftwareName
  let c := { c with logger := some env.NewLogger }
  c

/-! ## The operations -/

/-- The error `errors.New("no connection available")`. -/
def errNoConnection : GoError := ⟨"no connection available"⟩

/-- The error `errors.New("failed to contact")`. -/
def errFailedToContact : GoError := ⟨"failed to contact"⟩

/-- `DiscoverAddr(serverAddr)`: use the client's handle if it is not nil,
otherwise create one and close it (deferred) once `c.discover` has returned. -/
def DiscoverAddr (env : Env σ) (serverAddr : Option UDPAddr) (s : State σ) :
    (NATType × Option Host × Option GoError) × State σ :=
  match s.client.conn with
  | some conn => callDiscover env conn serverAddr s
  | none =>
    match callListenUDP env "udp" none s with
    | (.error err, s1) => ((NATType.NATError, none, some err), s1)
    | (.ok conn, s1) =>
      let r := callDiscover env conn serverAddr s1
      (r.1, callClose env conn r.2)

/-- `Discover(serverAddr)`: resolve the address, then `DiscoverAddr`. -/
def Discover (env : Env σ) (serverAddr : String) (s : State σ) :
    (NATType × Option Host × Option GoError) × State σ :=
  match callResolveUDPAddr env "udp" serverAddr s with
  | (.error err, s1) => ((NATType.NATError, none, some err), s1)
  | (.ok serverUDPAddr, s1) => DiscoverAddr env (some serverUDPAddr) s1

/-- `KeepaliveAddr(serverAddr)`: one Test I probe on the client's own handle. -/
def KeepaliveAddr (env : Env σ) (serverAddr : Option UDPAddr) (s : State σ) :
    (Option Host × Option GoError) × State σ :=
  match s.client.conn with
  | none => ((none, some errNoConnection), s)
  | some conn =>
    match callTest1 env conn serverAddr s with
    | ((_, some err), s1) => ((none, some err), s1)
    | ((none, none), s1) => ((none, some errFailedToContact), s1)
    | ((some resp, none), s1) =>
      match resp.packet with
      | none => ((none, some errFailedToContact), s1)
      | some _ => ((resp.mappedAddr, none), s1)

/-- `Keepalive(serverAddr)`: resolve the address, then `KeepaliveAddr`. -/
def Keepalive (env : Env σ) (serverAddr : String) (s : State σ) :
    (Option Host × Option GoError) × State σ :=
  match callResolveUDPAddr env "udp" serverAddr s with
  | (.error err, s1) => ((none, some err), s1)
  | (.ok serverUDPAddr, s1) => KeepaliveAddr env (some serverUDPAddr) s1

/-- Run `Discover` once for each address of a list, in order, dropping the
results. -/
def discoverAll (env : Env σ) : List String → State σ → State σ
  | [], s => s
  | a :: rest, s => discoverAll env rest (Discover env a s).2

/-- The number of `net.ResolveUDPAddr` calls in a trace. -/
def resolveCount : List Event → Nat
  | [] => 0
  | Event.resolveUDPAddr _ _ _ :: rest => resolveCount rest + 1
  | _ :: rest => resolveCount rest

/-- The number of `net.ListenUDP` calls in a trace. -/
def listenCount : List Event → Nat
  | [] => 0
  | Event.listenUDP _ _ _ :: rest => listenCount rest + 1
  | _ :: rest => listenCount rest

/-- The number of successful `net.ResolveUDPAddr` calls in a trace. -/
def resolvedCount : List Event → Nat
  | [] => 0
  | Event.resolveUDPAddr _ _ (some _) :: rest => resolvedCount rest + 1
  | _ :: rest => resolvedCount rest

/-! ## A scripted environment

A concrete world used to evaluate the operations: the outside state is the
number of handles open, and the server's behaviour depends on the port
addressed. -/

/-- The address every `host:port` string resolves to in `scriptedEnv`. -/
def stunServer : UDPAddr := { IP := [192, 0, 2, 1], Port := 3478, Zone := "" }

/-- A server that never answers. -/
def silentServer : UDPAddr := { IP := [192, 0, 2, 1], Port := 9, Zone := "" }

/-- The mapped address the scripted server reports. -/
def mappedHost : Host := { family := 1, ip := "203.0.113.7", port := 40000 }

/-- A decoded Binding Response. -/
def bindingResponse : packet :=
  { types := 257, length := 12, transID := [1, 2, 3, 4, 5, 6, 7, 8, 9, 10, 11, 12],
    attributes := [(1, [0, 1, 156, 64, 203, 0, 113, 7])] }

/-- The answer of the scripted Test I probe, by the server addressed. -/
def scriptedProbe : Option UDPAddr → Option response × Option GoError
  | none => (none, some ⟨"invalid argument"⟩)
  | some a =>
    if a.Port = 3478 then
      (some { packet := some bindingResponse, mappedAddr := some mappedHost }, none)
    else if a.Port = 3479 then
      (some { packet := some bindingResponse, mappedAddr := none }, none)
    else (none, none)

/-- A scripted world.  As with Go's resolver, the empty address resolves to the
empty `UDPAddr` and an address without a colon fails with "missing port in
address"; every other address resolves to `stunServer`.  At most two handles
can be open at once; the probe's answer depends on the server's port. -/
def scriptedEnv : Env Nat where
  DefaultSoftwareName := "StunClient"
  NewLogger := { debug := false, info := false }
  ResolveUDPAddr := fun _ address n =>
    if address = "" then (.ok { IP := [], Port := 0, Zone := "" }, n)
    else if ':' ∈ address.toList then (.ok stunServer, n)
    else (.error ⟨"address " ++ address ++ ": missing port in address"⟩, n)
  ListenUDP := fun _ _ n =>
    if n < 2 then (.ok ⟨n⟩, n + 1) else (.error ⟨"too many open files"⟩, n)
  Close := fun _ n => (none, n - 1)
  discover := fun _ _ cn => ((NATType.NATFullCone, some mappedHost, none), cn)
  test1 := fun _ serverAddr cn => (scriptedProbe serverAddr, cn)

/-- The helpers of the scripted world, as the spec has them: they do not write
the client. -/
def scriptedHelpers : Helpers Nat where
  discover := fun _ _ _ n => ((NATType.NATFullCone, some mappedHost, none), n)
  test1 := fun _ _ serverAddr n => (scriptedProbe serverAddr, n)

/-- A state of the scripted world around a given client. -/
def scriptedState (c : Client) (opened : Nat) : State Nat :=
  { client := c, net := opened, trace := [] }

/-! ## Auxiliary lemmas -/

theorem resolveCount_append (xs ys : List Event) :
    resolveCount (xs ++ ys) = resolveCount xs + resolveCount ys := by
  induction xs with
  | nil => simp [resolveCount]
  | cons e rest ih => cases e <;> simp [resolveCount, ih]; omega

theorem listenCount_append (xs ys : List Event) :
    listenCount (xs ++ ys) = listenCount xs + listenCount ys := by
  induction xs with
  | nil => simp [listenCount]
  | cons e rest ih => cases e <;> simp [listenCount, ih]; omega

theorem resolvedCount_append (xs ys : List Event) :
    resolvedCount (xs ++ ys) = resolvedCount xs + resolvedCount ys := by
  induction xs with
  | nil => simp [resolvedCount]
  | cons e rest ih =>
    cases e with
    | resolveUDPAddr nw a r => cases r <;> simp [resolvedCount, ih]; omega
    | _ => simp [resolvedCount, ih]

/-- `DiscoverAddr` leaves the client as `c.discover` leaves it. -/
theorem DiscoverAddr_client (env : Env σ)
    (hdiscover : ∀ conn a c n, (env.discover conn a (c, n)).2.1 = c)
    (serverAddr : Option UDPAddr) (s : State σ) :
    (DiscoverAddr env serverAddr s).2.client = s.client := by
  unfold DiscoverAddr
  cases hc : s.client.conn with
  | some conn => simp [callDiscover, hdiscover]
  | none =>
    rcases hl : env.ListenUDP "udp" none s.net with ⟨_ | _, n1⟩ <;>
      simp [callListenUDP, hl, callDiscover, callClose, hdiscover]

/-- `KeepaliveAddr` leaves the client as `c.test1` leaves it. -/
theorem KeepaliveAddr_client (env : Env σ)
    (htest1 : ∀ conn a c n, (env.test1 conn a (c, n)).2.1 = c)
    (serverAddr : Option UDPAddr) (s : State σ) :
    (KeepaliveAddr env serverAddr s).2.client = s.client := by
  unfold KeepaliveAddr
  cases hc : s.client.conn with
  | none => simp
  | some conn =>
    have hframe := htest1 conn serverAddr s.client s.net
    rcases ht : env.test1 conn serverAddr (s.client, s.net) with ⟨⟨resp, err⟩, c1, n1⟩
    rw [ht] at hframe
    cases err with
    | some e => simpa [callTest1, ht] using hframe
    | none =>
      cases resp with
      | none => simpa [callTest1, ht] using hframe
      | some r =>
        cases hp : r.packet <;> simpa [callTest1, ht, hp] using hframe

/-- One `Discover` call on a client without a handle: the client is left as it
was, and the call makes one `net.ResolveUDPAddr` call and, if the address
resolved, one `net.ListenUDP` call. -/
theorem Discover_step (env : Env σ)
    (hdiscover : ∀ conn a c n, (env.discover conn a (c, n)).2.1 = c)
    (address : String) (s : State σ) (h : s.client.conn = none) :
    (Discover env address s).2.client = s.client ∧
    ∃ added, (Discover env address s).2.trace = s.trace ++ added ∧
      resolveCount added = 1 ∧ listenCount added = resolvedCount added := by
  unfold Discover
  rcases hr : env.ResolveUDPAddr "udp" address s.net with ⟨err | addr, n1⟩
  · refine ⟨?_, [Event.resolveUDPAddr "udp" address none], ?_, rfl, rfl⟩ <;>
      simp [callResolveUDPAddr, hr, outcome]
  · simp only [callResolveUDPAddr, hr, outcome]
    refine ⟨by rw [DiscoverAddr_client env hdiscover], ?_⟩
    unfold DiscoverAddr
    simp only [h]
    rcases hl : env.ListenUDP "udp" none n1 with ⟨lerr | conn, n2⟩
    · refine ⟨[Event.resolveUDPAddr "udp" address (some addr),
        Event.listenUDP "udp" none none], ?_, rfl, rfl⟩
      simp [callListenUDP, hl, outcome]
    · refine ⟨[Event.resolveUDPAddr "udp" address (some addr),
        Event.listenUDP "udp" none (some conn), Event.discover conn (some addr),
        Event.close conn], ?_, rfl, rfl⟩
      simp [callListenUDP, hl, outcome, callDiscover, callClose]

/-- Any number of `Discover` calls on a client without a handle. -/
theorem discoverAll_steps (env : Env σ)
    (hdiscover : ∀ conn a c n, (env.discover conn a (c, n)).2.1 = c)
    (addresses : List String) (s : State σ) (h : s.client.conn = none) :
    (discoverAll env addresses s).client = s.client ∧
    ∃ added, (discoverAll env addresses s).trace = s.trace ++ added ∧
      resolveCount added = addresses.length ∧
      listenCount added = resolvedCount added := by
  induction addresses generalizing s with
  | nil => exact ⟨rfl, [], by simp [discoverAll], rfl, rfl⟩
  | cons a rest ih =>
    obtain ⟨hc, added1, ht1, hr1, hn1⟩ := Discover_step env hdiscover a s h
    obtain ⟨hc2, added2, ht2, hr2, hn2⟩ := ih (Discover env a s).2 (by rw [hc]; exact h)
    refine ⟨by simp only [discoverAll]; rw [hc2, hc], added1 ++ added2, ?_, ?_, ?_⟩
    · simp only [discoverAll]; rw [ht2, ht1, List.append_assoc]
    · rw [resolveCount_append, hr1, hr2, List.length_cons]; omega
    · rw [listenCount_append, resolvedCount_append, hn1, hn2]

/-- A `Discover` call on a client without a handle, when the address resolves
and `net.ListenUDP` yields `conn`: the call resolves, creates `conn`, runs
`c.discover` on it and closes it. -/
theorem Discover_own_handle (env : Env σ) (address : String) (s : State σ)
    (addr : UDPAddr) (n1 : σ) (conn : Conn) (n2 : σ)
    (h : s.client.conn = none)
    (hresolve : env.ResolveUDPAddr "udp" address s.net = (Except.ok addr, n1))
    (hlisten : env.ListenUDP "udp" none n1 = (Except.ok conn, n2)) :
    Discover env address s =
      ((env.discover conn (some addr) (s.client, n2)).1,
        { client := (env.discover conn (some addr) (s.client, n2)).2.1,
          net := (env.Close conn (env.discover conn (some addr) (s.client, n2)).2.2).2,
          trace := s.trace ++ [Event.resolveUDPAddr "udp" address (some addr),
            Event.listenUDP "udp" none (some conn), Event.discover conn (some addr),
            Event.close conn] }) := by
  simp [Discover, callResolveUDPAddr, hresolve, outcome, DiscoverAddr, h, callListenUDP,
    hlisten, callDiscover, callClose]

/-! ## Theorems -/

/-- C1: a client whose transport handle is absent gets, from `KeepaliveAddr`
and for every server address, a nil `Host` and the error "no connection
available"; the state is left as it was, so no Test I probe is invoked and no
handle is created. -/
theorem KeepaliveAddr_no_connection (env : Env σ) (serverAddr : Option UDPAddr) (s : State σ)
    (h : s.client.conn = none) :
    KeepaliveAddr env serverAddr s = ((none, some ⟨"no connection available"⟩), s) := by
  simp [KeepaliveAddr, h, errNoConnection]

theorem KeepaliveAddr_no_connection_witness :
    (scriptedState (NewClient scriptedEnv NewClientConfig) 0).client.conn = none ∧
    KeepaliveAddr scriptedEnv (some stunServer)
        (scriptedState (NewClient scriptedEnv NewClientConfig) 0) =
      ((none, some ⟨"no connection available"⟩),
        scriptedState (NewClient scriptedEnv NewClientConfig) 0) :=
  ⟨rfl, KeepaliveAddr_no_connection scriptedEnv (some stunServer)
    (scriptedState (NewClient scriptedEnv NewClientConfig) 0) rfl⟩

/-- C2: with a caller-supplied handle `conn` in the client, `DiscoverAddr`
returns the triple of `c.discover` on that very handle unchanged, and the one
collaborator call it makes is that `c.discover`: no `net.ListenUDP` (no new
handle) and no `Close` (the supplied handle stays open). -/
theorem DiscoverAddr_supplied_handle (env : Env σ) (conn : Conn)
    (serverAddr : Option UDPAddr) (s : State σ) (h : s.client.conn = some conn) :
    DiscoverAddr env serverAddr s =
      ((env.discover conn serverAddr (s.client, s.net)).1,
        { client := (env.discover conn serverAddr (s.client, s.net)).2.1,
          net := (env.discover conn serverAddr (s.client, s.net)).2.2,
          trace := s.trace ++ [Event.discover conn serverAddr] }) := by
  simp [DiscoverAddr, h, callDiscover]

theorem DiscoverAddr_supplied_handle_witness :
    (scriptedState (NewClientWithConnection scriptedEnv (some ⟨7⟩) NewClientConfig) 0).client.conn
        = some ⟨7⟩ ∧
    DiscoverAddr scriptedEnv (some stunServer)
        (scriptedState (NewClientWithConnection scriptedEnv (some ⟨7⟩) NewClientConfig) 0) =
      ((NATType.NATFullCone, some mappedHost, none),
        { client := NewClientWithConnection scriptedEnv (some ⟨7⟩) NewClientConfig,
          net := 0,
          trace := [Event.discover ⟨7⟩ (some stunServer)] }) :=
  ⟨rfl, DiscoverAddr_supplied_handle scriptedEnv ⟨7⟩ (some stunServer)
    (scriptedState (NewClientWithConnection scriptedEnv (some ⟨7⟩) NewClientConfig) 0) rfl⟩

/-- C3: for a client without a handle, when `net.ListenUDP` yields the
temporary handle `conn`, `DiscoverAddr` returns the triple of `c.discover` on
`conn`, whatever that triple is, and its collaborator calls are, in this order,
the `ListenUDP`, the `c.discover` on `conn` and one `Close` of `conn`. -/
theorem DiscoverAddr_temporary_handle (env : Env σ) (conn : Conn) (n1 : σ)
    (serverAddr : Option UDPAddr) (s : State σ)
    (h : s.client.conn = none)
    (hlisten : env.ListenUDP "udp" none s.net = (Except.ok conn, n1)) :
    DiscoverAddr env serverAddr s =
      ((env.discover conn serverAddr (s.client, n1)).1,
        { client := (env.discover conn serverAddr (s.client, n1)).2.1,
          net := (env.Close conn (env.discover conn serverAddr (s.client, n1)).2.2).2,
          trace := s.trace ++ [Event.listenUDP "udp" none (some conn),
            Event.discover conn serverAddr, Event.close conn] }) := by
  simp [DiscoverAddr, h, callListenUDP, hlisten, callDiscover, callClose, outcome]

theorem DiscoverAddr_temporary_handle_witness :
    (scriptedState (NewClient scriptedEnv NewClientConfig) 1).client.conn = none ∧
    scriptedEnv.ListenUDP "udp" none (scriptedState (NewClient scriptedEnv NewClientConfig) 1).net
        = (Except.ok ⟨1⟩, 2) ∧
    DiscoverAddr scriptedEnv (some stunServer)
        (scriptedState (NewClient scriptedEnv NewClientConfig) 1) =
      ((NATType.NATFullCone, some mappedHost, none),
        { client := NewClient scriptedEnv NewClientConfig,
          net := 1,
          trace := [Event.listenUDP "udp" none (some ⟨1⟩),
            Event.discover ⟨1⟩ (some stunServer), Event.close ⟨1⟩] }) :=
  ⟨rfl, rfl, DiscoverAddr_temporary_handle scriptedEnv ⟨1⟩ 2 (some stunServer)
    (scriptedState (NewClient scriptedEnv NewClientConfig) 1) rfl rfl⟩

/-- C4: when `net.ResolveUDPAddr` fails on the address string with `err`,
`Discover` returns `(NATError, nil, err)`; the client is untouched and the
failed resolution is the only collaborator call: no handle is created, the
classifier is not invoked and no probe is sent. -/
theorem Discover_resolution_failure (env : Env σ) (serverAddr : String) (err : GoError)
    (n1 : σ) (s : State σ)
    (hresolve : env.ResolveUDPAddr "udp" serverAddr s.net = (Except.error err, n1)) :
    Discover env serverAddr s =
      ((NATType.NATError, none, some err),
        { client := s.client, net := n1,
          trace := s.trace ++ [Event.resolveUDPAddr "udp" serverAddr none] }) := by
  simp [Discover, callResolveUDPAddr, hresolve, outcome]

theorem Discover_resolution_failure_witness :
    scriptedEnv.ResolveUDPAddr "udp" "no-port"
        (scriptedState (NewClient scriptedEnv NewClientConfig) 0).net
      = (Except.error ⟨"address no-port: missing port in address"⟩, 0) ∧
    Discover scriptedEnv "no-port" (scriptedState (NewClient scriptedEnv NewClientConfig) 0) =
      ((NATType.NATError, none, some ⟨"address no-port: missing port in address"⟩),
        { client := NewClient scriptedEnv NewClientConfig, net := 0,
          trace := [Event.resolveUDPAddr "udp" "no-port" none] }) :=
  ⟨rfl, Discover_resolution_failure scriptedEnv "no-port"
    ⟨"address no-port: missing port in address"⟩ 0
    (scriptedState (NewClient scriptedEnv NewClientConfig) 0) rfl⟩

/-- C5: for a client with a handle, when the Test I probe returns a nil error
and either no response or a response without a packet, `KeepaliveAddr` returns
a nil `Host` with the error "failed to contact" (so not a nil error), having
invoked exactly that one probe on the client's handle. -/
theorem KeepaliveAddr_no_response (env : Env σ) (conn : Conn) (serverAddr : Option UDPAddr)
    (s : State σ) (resp : Option response)
    (h : s.client.conn = some conn)
    (htest : (env.test1 conn serverAddr (s.client, s.net)).1 = (resp, none))
    (hresp : resp = none ∨ ∃ r, resp = some r ∧ r.packet = none) :
    (KeepaliveAddr env serverAddr s).1 = (none, some ⟨"failed to contact"⟩) ∧
    (KeepaliveAddr env serverAddr s).2.trace = s.trace ++ [Event.test1 conn serverAddr] := by
  rcases hresp with hnone | ⟨r, hsome, hpkt⟩
  · subst hnone
    simp [KeepaliveAddr, h, callTest1, htest, errFailedToContact]
  · subst hsome
    simp [KeepaliveAddr, h, callTest1, htest, hpkt, errFailedToContact]

theorem KeepaliveAddr_no_response_witness :
    ((scriptedState (NewClientWithConnection scriptedEnv (some ⟨7⟩) NewClientConfig) 0).client.conn
        = some ⟨7⟩ ∧
      (scriptedEnv.test1 ⟨7⟩ (some silentServer)
        ((scriptedState (NewClientWithConnection scriptedEnv (some ⟨7⟩) NewClientConfig) 0).client,
          (scriptedState (NewClientWithConnection scriptedEnv (some ⟨7⟩) NewClientConfig) 0).net)).1
        = (none, none)) ∧
    (KeepaliveAddr scriptedEnv (some silentServer)
        (scriptedState (NewClientWithConnection scriptedEnv (some ⟨7⟩) NewClientConfig) 0)).1
      = (none, some ⟨"failed to contact"⟩) ∧
    (KeepaliveAddr scriptedEnv (some silentServer)
        (scriptedState (NewClientWithConnection scriptedEnv (some ⟨7⟩) NewClientConfig) 0)).2.trace
      = [] ++ [Event.test1 ⟨7⟩ (some silentServer)] :=
  ⟨⟨rfl, rfl⟩, KeepaliveAddr_no_response scriptedEnv ⟨7⟩ (some silentServer)
    (scriptedState (NewClientWithConnection scriptedEnv (some ⟨7⟩) NewClientConfig) 0) none
    rfl rfl (Or.inl rfl)⟩

/-- C7: `NewClient config` has no handle, holds the given configuration and
has `DefaultSoftwareName` as its software name; `NewClientWithConnection conn
config` is that same client with `conn` as its handle. -/
theorem NewClient_fields (env : Env σ) (conn : Option Conn) (config : Option ClientConfig) :
    (NewClient env config).conn = none ∧
    (NewClient env config).config = config ∧
    (NewClient env config).softwareName = env.DefaultSoftwareName ∧
    NewClientWithConnection env conn config = { NewClient env config with conn := conn } := by
  simp [NewClient, NewClientWithConnection, Client.new, Client.SetSoftwareName]

/-- C9: for a client without a handle, when `net.ListenUDP` fails with `err`,
`DiscoverAddr` returns `(NATError, nil, err)`; the failed `ListenUDP` is the
only collaborator call, so the classifier is not invoked and nothing is
closed. -/
theorem DiscoverAddr_listen_failure (env : Env σ) (err : GoError) (n1 : σ)
    (serverAddr : Option UDPAddr) (s : State σ)
    (h : s.client.conn = none)
    (hlisten : env.ListenUDP "udp" none s.net = (Except.error err, n1)) :
    DiscoverAddr env serverAddr s =
      ((NATType.NATError, none, some err),
        { client := s.client, net := n1,
          trace := s.trace ++ [Event.listenUDP "udp" none none] }) := by
  simp [DiscoverAddr, h, callListenUDP, hlisten, outcome]

theorem DiscoverAddr_listen_failure_witness :
    (scriptedState (NewClient scriptedEnv NewClientConfig) 2).client.conn = none ∧
    scriptedEnv.ListenUDP "udp" none (scriptedState (NewClient scriptedEnv NewClientConfig) 2).net
        = (Except.error ⟨"too many open files"⟩, 2) ∧
    DiscoverAddr scriptedEnv (some stunServer)
        (scriptedState (NewClient scriptedEnv NewClientConfig) 2) =
      ((NATType.NATError, none, some ⟨"too many open files"⟩),
        { client := NewClient scriptedEnv NewClientConfig, net := 2,
          trace := [Event.listenUDP "udp" none none] }) :=
  ⟨rfl, rfl, DiscoverAddr_listen_failure scriptedEnv ⟨"too many open files"⟩ 2
    (some stunServer) (scriptedState (NewClient scriptedEnv NewClientConfig) 2) rfl rfl⟩

/-- C6, as stated, fails: for a client constructed without a handle and the
address string "no-port", which does not resolve (it has no port), `Keepalive`
returns the resolution error, which is not the error "no connection
available". -/
theorem Keepalive_unresolved_address_counterexample :
    (NewClient scriptedEnv NewClientConfig).conn = none ∧
    (scriptedEnv.ResolveUDPAddr "udp" "no-port" 0).1
      = Except.error ⟨"address no-port: missing port in address"⟩ ∧
    (Keepalive scriptedEnv "no-port"
        (scriptedState (NewClient scriptedEnv NewClientConfig) 0)).1
      = (none, some ⟨"address no-port: missing port in address"⟩) ∧
    (Keepalive scriptedEnv "no-port"
        (scriptedState (NewClient scriptedEnv NewClientConfig) 0)).1.2
      ≠ some ⟨"no connection available"⟩ := by
  refine ⟨rfl, rfl, rfl, ?_⟩
  decide

/-- C6, amended: for a client without a handle and every address string,
`Keepalive` fails with a nil `Host`, and its only collaborator call is the
resolution of the address (no handle is created, no probe is invoked).  When
the address does not resolve, the error is the resolution error; when it
resolves, the error is "no connection available". -/
theorem Keepalive_without_handle (env : Env σ) (serverAddr : String) (s : State σ)
    (h : s.client.conn = none) :
    (∀ err n1, env.ResolveUDPAddr "udp" serverAddr s.net = (Except.error err, n1) →
      Keepalive env serverAddr s =
        ((none, some err),
          { client := s.client, net := n1,
            trace := s.trace ++ [Event.resolveUDPAddr "udp" serverAddr none] })) ∧
    (∀ addr n1, env.ResolveUDPAddr "udp" serverAddr s.net = (Except.ok addr, n1) →
      Keepalive env serverAddr s =
        ((none, some ⟨"no connection available"⟩),
          { client := s.client, net := n1,
            trace := s.trace ++ [Event.resolveUDPAddr "udp" serverAddr (some addr)] })) := by
  constructor
  · intro err n1 hr
    simp [Keepalive, callResolveUDPAddr, hr, outcome]
  · intro addr n1 hr
    simp [Keepalive, callResolveUDPAddr, hr, outcome, KeepaliveAddr, h, errNoConnection]

theorem Keepalive_without_handle_witness :
    (scriptedState (NewClient scriptedEnv NewClientConfig) 0).client.conn = none ∧
    Keepalive scriptedEnv "no-port" (scriptedState (NewClient scriptedEnv NewClientConfig) 0) =
      ((none, some ⟨"address no-port: missing port in address"⟩),
        { client := NewClient scriptedEnv NewClientConfig, net := 0,
          trace := [] ++ [Event.resolveUDPAddr "udp" "no-port" none] }) ∧
    Keepalive scriptedEnv "192.0.2.1:3478"
        (scriptedState (NewClient scriptedEnv NewClientConfig) 0) =
      ((none, some ⟨"no connection available"⟩),
        { client := NewClient scriptedEnv NewClientConfig, net := 0,
          trace := [] ++ [Event.resolveUDPAddr "udp" "192.0.2.1:3478"
            (some stunServer)] }) ∧
    Keepalive scriptedEnv "" (scriptedState (NewClient scriptedEnv NewClientConfig) 0) =
      ((none, some ⟨"no connection available"⟩),
        { client := NewClient scriptedEnv NewClientConfig, net := 0,
          trace := [] ++ [Event.resolveUDPAddr "udp" ""
            (some { IP := [], Port := 0, Zone := "" })] }) :=
  ⟨rfl,
    (Keepalive_without_handle scriptedEnv "no-port"
      (scriptedState (NewClient scriptedEnv NewClientConfig) 0) rfl).1
      ⟨"address no-port: missing port in address"⟩ 0 rfl,
    (Keepalive_without_handle scriptedEnv "192.0.2.1:3478"
      (scriptedState (NewClient scriptedEnv NewClientConfig) 0) rfl).2
      stunServer 0 rfl,
    (Keepalive_without_handle scriptedEnv ""
      (scriptedState (NewClient scriptedEnv NewClientConfig) 0) rfl).2
      { IP := [], Port := 0, Zone := "" } 0 rfl⟩

/-- C10: with `c.discover` and `c.test1` as the spec has them (helpers that
do not write the client), each of `Discover`, `DiscoverAddr`, `Keepalive` and
`KeepaliveAddr` leaves every field of the client as it was.  For a client
without a handle, after `Discover` has been called on any list of addresses:
the client is as before (no handle was stored); `KeepaliveAddr` fails with "no
connection available" and makes no collaborator call; the calls made one
`net.ResolveUDPAddr` call per address and one `net.ListenUDP` call per address
that resolved; and a further `Discover` call whose address resolves and whose
`net.ListenUDP` yields `conn` creates that `conn` itself, runs the classifier on
it and closes it. -/
theorem client_never_written (env : Env σ) (hs : Helpers σ) (s : State σ) (address : String)
    (serverAddr : Option UDPAddr) (addresses : List String) :
    (Discover (readOnlyEnv env hs) address s).2.client = s.client ∧
    (DiscoverAddr (readOnlyEnv env hs) serverAddr s).2.client = s.client ∧
    (Keepalive (readOnlyEnv env hs) address s).2.client = s.client ∧
    (KeepaliveAddr (readOnlyEnv env hs) serverAddr s).2.client = s.client ∧
    (s.client.conn = none →
      (discoverAll (readOnlyEnv env hs) addresses s).client = s.client ∧
      KeepaliveAddr (readOnlyEnv env hs) serverAddr
          (discoverAll (readOnlyEnv env hs) addresses s) =
        ((none, some ⟨"no connection available"⟩),
          discoverAll (readOnlyEnv env hs) addresses s) ∧
      (∃ added,
        (discoverAll (readOnlyEnv env hs) addresses s).trace = s.trace ++ added ∧
        resolveCount added = addresses.length ∧
        listenCount added = resolvedCount added) ∧
      (∀ addr n1 conn n2,
        env.ResolveUDPAddr "udp" address (discoverAll (readOnlyEnv env hs) addresses s).net
          = (Except.ok addr, n1) →
        env.ListenUDP "udp" none n1 = (Except.ok conn, n2) →
        Discover (readOnlyEnv env hs) address (discoverAll (readOnlyEnv env hs) addresses s) =
          ((hs.discover s.client conn (some addr) n2).1,
            { client := s.client,
              net := (env.Close conn (hs.discover s.client conn (some addr) n2).2).2,
              trace := (discoverAll (readOnlyEnv env hs) addresses s).trace ++
                [Event.resolveUDPAddr "udp" address (some addr),
                  Event.listenUDP "udp" none (some conn),
                  Event.discover conn (some addr), Event.close conn] }))) := by
  have hd : ∀ conn a c n, ((readOnlyEnv env hs).discover conn a (c, n)).2.1 = c :=
    fun _ _ _ _ => rfl
  have ht : ∀ conn a c n, ((readOnlyEnv env hs).test1 conn a (c, n)).2.1 = c :=
    fun _ _ _ _ => rfl
  refine ⟨?_, DiscoverAddr_client _ hd serverAddr s, ?_,
    KeepaliveAddr_client _ ht serverAddr s, ?_⟩
  · unfold Discover
    rcases hr : (readOnlyEnv env hs).ResolveUDPAddr "udp" address s.net with ⟨err | addr, n1⟩
    · simp [callResolveUDPAddr, hr]
    · simp only [callResolveUDPAddr, hr]
      rw [DiscoverAddr_client _ hd]
  · unfold Keepalive
    rcases hr : (readOnlyEnv env hs).ResolveUDPAddr "udp" address s.net with ⟨err | addr, n1⟩
    · simp [callResolveUDPAddr, hr]
    · simp only [callResolveUDPAddr, hr]
      rw [KeepaliveAddr_client _ ht]
  · intro h
    obtain ⟨hc, hadded⟩ := discoverAll_steps (readOnlyEnv env hs) hd addresses s h
    refine ⟨hc, ?_, hadded, ?_⟩
    · simp [KeepaliveAddr, hc, h, errNoConnection]
    · intro addr n1 conn n2 hr hl
      have hnone : (discoverAll (readOnlyEnv env hs) addresses s).client.conn = none := by
        rw [hc]; exact h
      rw [Discover_own_handle (readOnlyEnv env hs) address _ addr n1 conn n2 hnone hr hl, hc]
      rfl

/-- Three `Discover` calls in the scripted world, one of them on an address
that does not resolve, then the checks of C10 on the state they leave. -/
theorem client_never_written_witness :
    (scriptedState (NewClient scriptedEnv NewClientConfig) 0).client.conn = none ∧
    (discoverAll (readOnlyEnv scriptedEnv scriptedHelpers)
        ["192.0.2.1:3478", "no-port", "", "192.0.2.1:3478"]
        (scriptedState (NewClient scriptedEnv NewClientConfig) 0)) =
      { client := NewClient scriptedEnv NewClientConfig, net := 0,
        trace := [
          Event.resolveUDPAddr "udp" "192.0.2.1:3478" (some stunServer),
          Event.listenUDP "udp" none (some ⟨0⟩),
          Event.discover ⟨0⟩ (some stunServer), Event.close ⟨0⟩,
          Event.resolveUDPAddr "udp" "no-port" none,
          Event.resolveUDPAddr "udp" "" (some { IP := [], Port := 0, Zone := "" }),
          Event.listenUDP "udp" none (some ⟨0⟩),
          Event.discover ⟨0⟩ (some { IP := [], Port := 0, Zone := "" }), Event.close ⟨0⟩,
          Event.resolveUDPAddr "udp" "192.0.2.1:3478" (some stunServer),
          Event.listenUDP "udp" none (some ⟨0⟩),
          Event.discover ⟨0⟩ (some stunServer), Event.close ⟨0⟩] } ∧
    (discoverAll (readOnlyEnv scriptedEnv scriptedHelpers)
        ["192.0.2.1:3478", "no-port", "", "192.0.2.1:3478"]
        (scriptedState (NewClient scriptedEnv NewClientConfig) 0)).client
      = NewClient scriptedEnv NewClientConfig ∧
    KeepaliveAddr (readOnlyEnv scriptedEnv scriptedHelpers) (some stunServer)
        (discoverAll (readOnlyEnv scriptedEnv scriptedHelpers)
          ["192.0.2.1:3478", "no-port", "", "192.0.2.1:3478"]
          (scriptedState (NewClient scriptedEnv NewClientConfig) 0)) =
      ((none, some ⟨"no connection available"⟩),
        discoverAll (readOnlyEnv scriptedEnv scriptedHelpers)
          ["192.0.2.1:3478", "no-port", "", "192.0.2.1:3478"]
          (scriptedState (NewClient scriptedEnv NewClientConfig) 0)) ∧
    (Discover (readOnlyEnv scriptedEnv scriptedHelpers) "192.0.2.1:3478"
        (discoverAll (readOnlyEnv scriptedEnv scriptedHelpers)
          ["192.0.2.1:3478", "no-port", "", "192.0.2.1:3478"]
          (scriptedState (NewClient scriptedEnv NewClientConfig) 0))).2.trace =
      (discoverAll (readOnlyEnv scriptedEnv scriptedHelpers)
          ["192.0.2.1:3478", "no-port", "", "192.0.2.1:3478"]
          (scriptedState (NewClient scriptedEnv NewClientConfig) 0)).trace ++
        [Event.resolveUDPAddr "udp" "192.0.2.1:3478" (some stunServer),
          Event.listenUDP "udp" none (some ⟨0⟩),
          Event.discover ⟨0⟩ (some stunServer), Event.close ⟨0⟩] :=
  have key := (client_never_written scriptedEnv scriptedHelpers
    (scriptedState (NewClient scriptedEnv NewClientConfig) 0) "192.0.2.1:3478"
    (some stunServer) ["192.0.2.1:3478", "no-port", "", "192.0.2.1:3478"]).2.2.2.2
    rfl
  ⟨rfl, rfl, key.1, key.2.1,
    congrArg (fun r => r.2.trace) (key.2.2.2 stunServer 0 ⟨0⟩ 1 rfl rfl)⟩

end Stun
